import Mathlib

/-!
Shallow embedding of the particle-field core of the traceHandle repository
(src/src/GestureController.js: classes `GestureController` and `ParticleTree`,
wired together by the entry script).

JavaScript numbers are modelled as real numbers; `Math.random()` draws are
modelled by explicit streams `ρ : ℕ → ℝ` (one stream per particle for the
per-particle loops), read in the order the source draws them.  Flat
`Float32Array`s of length `3 * treeCount` are modelled as total functions
`ℕ → ℝ` whose writes are guarded by the source loop bound.
-/

set_option maxHeartbeats 1000000

namespace TraceHandle

noncomputable section

/-- Coordinate triple (models a THREE.Vector3 or an `(x, y, z)` record). -/
structure Vec3 where
  x : ℝ
  y : ℝ
  z : ℝ

/-- Region tag produced by `ParticleTree.getBanyanPosition`. -/
inductive Region where
  | trunk
  | root
  | leaves
deriving DecidableEq

/-- Field state of the particle tree (`this.state`). -/
inductive TreeState where
  | formed
  | dispersed
deriving DecidableEq

/-- Source constant `this.treeCount = 20000`. -/
def treeCount : ℕ := 20000

/-- Source constant `this.meteorCount = 100`. -/
def meteorCount : ℕ := 100

/-- Result record of `getBanyanPosition`: `\x7b x, y, z, type \x7d`. -/
structure BanyanPoint where
  x : ℝ
  y : ℝ
  z : ℝ
  type : Region

/-- Position part of a `BanyanPoint`. -/
def BanyanPoint.pos (b : BanyanPoint) : Vec3 := ⟨b.x, b.y, b.z⟩

/-- Model of `ParticleTree.getBanyanPosition(i)` (GestureController.js:342-391).
`ρ` is the stream of `Math.random()` draws for this call, in draw order:
`ρ 0` is the unused `const r = Math.random()` at the top, and each branch then
draws `ρ 1`, `ρ 2`, `ρ 3`. -/
def getBanyanPosition (i : ℕ) (ρ : ℕ → ℝ) : BanyanPoint :=
  if (i : ℝ) < (treeCount : ℝ) * 0.25 then
    -- trunk branch
    let height : ℝ := 4.0
    let y := (ρ 1 * height) - (height / 2) - 1.0
    let progress := (y + (height / 2) + 1.0) / height
    let radius := 0.3 + (1.0 - progress) * 1.5 + (ρ 2 * 0.05)
    let angle := ρ 3 * Real.pi * 2
    ⟨Real.cos angle * radius, y, Real.sin angle * radius, Region.trunk⟩
  else if (i : ℝ) < (treeCount : ℝ) * 0.35 then
    -- root branch
    let dropHeight : ℝ := 3.0
    let y := (ρ 1 * dropHeight) - 2.0
    let radius := 1.2 + ρ 2 * 2.5
    let angle := ρ 3 * Real.pi * 2
    ⟨Real.cos angle * radius, y, Real.sin angle * radius, Region.root⟩
  else
    -- leaves branch
    let theta := ρ 1 * Real.pi * 2
    let phi := Real.arccos (2 * ρ 2 - 1)
    let rSphere := 3.5 + ρ 3 * 0.5
    let x := rSphere * Real.sin phi * Real.cos theta
    let y := rSphere * Real.sin phi * Real.sin theta
    let z := rSphere * Real.cos phi
    ⟨x * 1.5, |y| * 0.6 + 0.5, z * 1.5, Region.leaves⟩

/-- Model of `Math.cbrt` (real cube root, sign-preserving). -/
def cbrt (v : ℝ) : ℝ :=
  if v < 0 then -((-v) ^ ((1 : ℝ) / 3)) else v ^ ((1 : ℝ) / 3)

/-- Model of `ParticleTree.getDispersedPosition()` (GestureController.js:456-466).
Draw order: `ρ 0` for the radius, `ρ 1` for `theta`, `ρ 2` for `phi`. -/
def getDispersedPosition (ρ : ℕ → ℝ) : Vec3 :=
  let r := 10 * cbrt (ρ 0)
  let theta := ρ 1 * 2 * Real.pi
  let phi := Real.arccos (2 * ρ 2 - 1)
  ⟨r * Real.sin phi * Real.cos theta,
   r * Real.sin phi * Real.sin theta,
   r * Real.cos phi⟩

/-- Coordinate `k % 3` selection used to flatten a `Vec3` into the
`Float32Array` layout `[x, y, z]`. -/
def vecCoord (v : Vec3) (k : ℕ) : ℝ :=
  match k with
  | 0 => v.x
  | 1 => v.y
  | _ => v.z

/-- Model of THREE.MathUtils truncating JS `%` on reals. -/
def jsTrunc (v : ℝ) : ℝ :=
  if v < 0 then (⌈v⌉ : ℝ) else (⌊v⌋ : ℝ)

/-- JS remainder `n % m` (sign of the dividend). -/
def jsMod (n m : ℝ) : ℝ := n - m * jsTrunc (n / m)

/-- THREE.MathUtils.euclideanModulo. -/
def euclideanModulo (n m : ℝ) : ℝ := jsMod (jsMod n m + m) m

/-- THREE.MathUtils.clamp to [0, 1]. -/
def clamp01 (v : ℝ) : ℝ := max 0 (min 1 v)

/-- THREE `hue2rgb` helper used by `Color.setHSL`. -/
def hue2rgb (p q t : ℝ) : ℝ :=
  let t1 := if t < 0 then t + 1 else t
  let t2 := if t1 > 1 then t1 - 1 else t1
  if t2 < 1 / 6 then p + (q - p) * 6 * t2
  else if t2 < 1 / 2 then q
  else if t2 < 2 / 3 then p + (q - p) * 6 * (2 / 3 - t2)
  else p

/-- Model of `THREE.Color.setHSL(h, s, l)` producing linear rgb components. -/
def setHSL (h s l : ℝ) : Vec3 :=
  let h := euclideanModulo h 1
  let s := clamp01 s
  let l := clamp01 l
  if s = 0 then ⟨l, l, l⟩
  else
    let p := if l ≤ 0.5 then l * (1 + s) else l + s - l * s
    let q := 2 * l - p
    ⟨hue2rgb q p (h + 1 / 3), hue2rgb q p h, hue2rgb q p (h - 1 / 3)⟩

/-- Color, size and opacity chosen for a particle in `initParticles`
(GestureController.js:223-275), given its region tag.  The color-section
`Math.random()` draws continue the particle's stream after the four draws
consumed by `getBanyanPosition`, so they start at `ρ 4`. -/
def initColorSizeOpacity (ty : Region) (ρ : ℕ → ℝ) : Vec3 × ℝ × ℝ :=
  match ty with
  | Region.trunk =>
      let r := ρ 4
      if r > 0.97 then (setHSL 0.08 0.7 0.6, 2.5, 0.9)
      else (setHSL 0.06 0.4 (0.15 + ρ 5 * 0.25), 0.8 + ρ 6 * 0.5, 0.9)
  | Region.root =>
      (setHSL 0.08 0.3 (0.35 + ρ 4 * 0.15), 0.7, 0.7)
  | Region.leaves =>
      let r := ρ 4
      if r > 0.85 then (⟨1, 1, 1⟩, 2.0, 1.0)
      else if r > 0.65 then (setHSL 0.89 1.0 0.85, 1.5 + ρ 5 * 0.5, 0.95)
      else if r > 0.35 then (setHSL 0.86 0.9 0.75, 1.3 + ρ 5 * 0.5, 0.9)
      else (setHSL 0.81 0.8 0.70, 1.2 + ρ 5, 0.85)

/-- One decorative meteor's mutable data (`this.meteorData[i]`). -/
structure Meteor where
  pos : Vec3
  velocity : Vec3
  length : ℝ
  color : Vec3

/-- Model of `ParticleTree.resetMeteor(data, randomStart)`
(GestureController.js:324-340); `ρ` is this call's `Math.random()` stream. -/
def resetMeteor (randomStart : Bool) (ρ : ℕ → ℝ) : Meteor :=
  let x := if randomStart then ρ 0 * 40 - 20 else 20 + ρ 0 * 10
  let y := ρ 1 * 20 - 10
  let z := ρ 2 * 10 - 20
  { pos := ⟨x, y, z⟩
    velocity := ⟨-0.3 - ρ 3 * 0.3, -0.05 - ρ 4 * 0.1, 0⟩
    length := 3.0 + ρ 5 * 6.0
    color := if ρ 6 > 0.5 then ⟨1, 1, 1⟩ else ⟨173 / 255, 216 / 255, 230 / 255⟩ }

/-- Meteor pass of `update()` for one meteor (GestureController.js:516-544):
advance the head by the velocity, then respawn if the head left the volume. -/
def stepMeteor (m : Meteor) (ρ : ℕ → ℝ) : Meteor :=
  let p : Vec3 := ⟨m.pos.x + m.velocity.x, m.pos.y + m.velocity.y, m.pos.z + m.velocity.z⟩
  if p.x < -30 then resetMeteor false ρ else { m with pos := p }

/-- The mutable state of a `ParticleTree` instance.  The flat arrays
`treePositions` (aliased by the geometry `position` attribute that `update()`
writes through) and `treeTargetPositions` hold 3 coordinates per particle;
`rotationY` is `this.particles.rotation.y`. -/
structure ParticleTree where
  state : TreeState
  treePositions : ℕ → ℝ
  treeTargetPositions : ℕ → ℝ
  treeColors : ℕ → ℝ
  treeSizes : ℕ → ℝ
  treeOpacities : ℕ → ℝ
  rotationY : ℝ
  rotationSpeed : ℝ
  uTime : ℝ
  meteorData : ℕ → Meteor

/-- Flat-array cell `j` written by `initParticles` into both `treePositions`
and `treeTargetPositions` (GestureController.js:210-221): particle `j / 3`,
coordinate `j % 3`; cells beyond the loop keep the `Float32Array` zero fill. -/
def initTreePoint (ρ : ℕ → ℕ → ℝ) (j : ℕ) : ℝ :=
  if j < 3 * treeCount then vecCoord (getBanyanPosition (j / 3) (ρ (j / 3))).pos (j % 3)
  else 0

/-- Flat color cell `j` written by `initParticles`. -/
def initTreeColor (ρ : ℕ → ℕ → ℝ) (j : ℕ) : ℝ :=
  if j < 3 * treeCount then
    vecCoord (initColorSizeOpacity (getBanyanPosition (j / 3) (ρ (j / 3))).type (ρ (j / 3))).1 (j % 3)
  else 0

/-- Size entry `i` written by `initParticles`. -/
def initTreeSize (ρ : ℕ → ℕ → ℝ) (i : ℕ) : ℝ :=
  if i < treeCount then (initColorSizeOpacity (getBanyanPosition i (ρ i)).type (ρ i)).2.1
  else 0

/-- Opacity entry `i` written by `initParticles`. -/
def initTreeOpacity (ρ : ℕ → ℕ → ℝ) (i : ℕ) : ℝ :=
  if i < treeCount then (initColorSizeOpacity (getBanyanPosition i (ρ i)).type (ρ i)).2.2
  else 0

/-- Model of the `ParticleTree` constructor together with `initParticles` and
`initMeteors` (GestureController.js:175-322): state starts `formed`,
`rotationSpeed` 0, and every particle's current position equals its target
position (both written from the same `getBanyanPosition` call).  `ρt i` is
particle `i`'s random stream; `ρm i` is meteor `i`'s. -/
def mkParticleTree (ρt ρm : ℕ → ℕ → ℝ) : ParticleTree :=
  { state := TreeState.formed
    treePositions := initTreePoint ρt
    treeTargetPositions := initTreePoint ρt
    treeColors := initTreeColor ρt
    treeSizes := initTreeSize ρt
    treeOpacities := initTreeOpacity ρt
    rotationY := 0
    rotationSpeed := 0
    uTime := 0
    meteorData := fun i => resetMeteor true (ρm i) }

/-- Model of `ParticleTree.form()` (GestureController.js:468-477). -/
def form (s : ParticleTree) (ρ : ℕ → ℕ → ℝ) : ParticleTree :=
  if s.state = TreeState.formed then s
  else
    { s with
      state := TreeState.formed
      treeTargetPositions := fun j =>
        if j < 3 * treeCount then vecCoord (getBanyanPosition (j / 3) (ρ (j / 3))).pos (j % 3)
        else s.treeTargetPositions j }

/-- Model of `ParticleTree.disperse()` (GestureController.js:479-488). -/
def disperse (s : ParticleTree) (ρ : ℕ → ℕ → ℝ) : ParticleTree :=
  if s.state = TreeState.dispersed then s
  else
    { s with
      state := TreeState.dispersed
      treeTargetPositions := fun j =>
        if j < 3 * treeCount then vecCoord (getDispersedPosition (ρ (j / 3))) (j % 3)
        else s.treeTargetPositions j }

/-- Model of `ParticleTree.rotate(normalizedX)` (GestureController.js:490-493). -/
def rotate (s : ParticleTree) (normalizedX : ℝ) : ParticleTree :=
  { s with rotationSpeed := (normalizedX - 0.5) * 0.1 }

/-- Model of `ParticleTree.update()` (GestureController.js:495-548): advance
`uTime`, blend every position cell toward its target by factor 0.06, add the
rotation velocity to the orientation and then damp it by 0.96, and advance the
meteors (`ρm i` is the stream for meteor `i`'s potential respawn). -/
def update (s : ParticleTree) (ρm : ℕ → ℕ → ℝ) : ParticleTree :=
  { s with
    uTime := s.uTime + 0.01
    treePositions := fun j =>
      if j < 3 * treeCount then
        s.treePositions j + (s.treeTargetPositions j - s.treePositions j) * 0.06
      else s.treePositions j
    rotationY := s.rotationY + s.rotationSpeed
    rotationSpeed := s.rotationSpeed * 0.96
    meteorData := fun i => stepMeteor (s.meteorData i) (ρm i) }

/-- One hand landmark (normalized camera coordinates). -/
structure Landmark where
  x : ℝ
  y : ℝ
  z : ℝ

/-- Discrete gesture events emitted by `GestureController`
(`openHand` models the source's string event name for an open hand). -/
inductive GEvent where
  | fist
  | openHand
  | move (x : ℝ)
deriving DecidableEq

/-- Euclidean distance from the wrist to one fingertip
(GestureController.js:90-94). -/
def tipDist (w t : Landmark) : ℝ :=
  Real.sqrt ((t.x - w.x) ^ 2 + (t.y - w.y) ^ 2 + (t.z - w.z) ^ 2)

/-- Average wrist-to-fingertip distance over tips 8, 12, 16, 20
(GestureController.js:84-97). -/
def avgDist (lm : ℕ → Landmark) : ℝ :=
  (tipDist (lm 0) (lm 8) + tipDist (lm 0) (lm 12) +
   tipDist (lm 0) (lm 16) + tipDist (lm 0) (lm 20)) / 4

/-- Model of `GestureController.processGestures(landmarks)`
(GestureController.js:72-112), as the ordered list of emitted events:
at most one of `fist` (avg < 0.2) / `openHand` (avg > 0.3), always followed
by `move(wrist.x)`. -/
def processGestures (lm : ℕ → Landmark) : List GEvent :=
  (if avgDist lm < 0.2 then [GEvent.fist]
   else if avgDist lm > 0.3 then [GEvent.openHand]
   else []) ++ [GEvent.move (lm 0).x]

/-- Event wiring from the entry script (`gestureController.on(...)` lines):
`fist` triggers `form()`, `open` triggers `disperse()`, `move(x)` triggers
`rotate(x)`. -/
def dispatchEvent (ρ : ℕ → ℕ → ℝ) (s : ParticleTree) : GEvent → ParticleTree
  | GEvent.fist => form s ρ
  | GEvent.openHand => disperse s ρ
  | GEvent.move x => rotate s x

/-- The all-zeros random stream, used to instantiate witnesses. -/
def zeroStream : ℕ → ℕ → ℝ := fun _ _ => 0

/-- A concrete freshly constructed tree, used to instantiate witnesses. -/
def treeZero : ParticleTree := mkParticleTree zeroStream zeroStream

/-- A concrete field state used to instantiate witnesses: formed, all current
positions 0, all target positions 10, velocity 0. -/
def treeSimple : ParticleTree :=
  { state := TreeState.formed
    treePositions := fun _ => 0
    treeTargetPositions := fun _ => 10
    treeColors := fun _ => 0
    treeSizes := fun _ => 0
    treeOpacities := fun _ => 0
    rotationY := 0
    rotationSpeed := 0
    uTime := 0
    meteorData := fun _ => resetMeteor true (fun _ => 0) }

/-- Per-frame blend applied by `update` to one in-range position cell. -/
theorem update_pos_formula (s : ParticleTree) (ρ : ℕ → ℕ → ℝ) (j : ℕ)
    (hj : j < 3 * treeCount) :
    (update s ρ).treePositions j
      = s.treePositions j + (s.treeTargetPositions j - s.treePositions j) * 0.06 := by
  simp only [update]
  rw [if_pos hj]

/-- `update` never changes the target buffer, so iterating it keeps targets. -/
theorem iterate_update_target (s : ParticleTree) (ρ : ℕ → ℕ → ℝ) (j n : ℕ) :
    ((fun u => update u ρ)^[n] s).treeTargetPositions j = s.treeTargetPositions j := by
  induction n with
  | zero => rfl
  | succ n ih =>
    rw [Function.iterate_succ_apply']
    exact ih

/-- Under iterated `update`, an in-range position cell strictly below its
target stays strictly below it. -/
theorem iterate_update_pos_lt (s : ParticleTree) (ρ : ℕ → ℕ → ℝ) (j : ℕ)
    (hj : j < 3 * treeCount)
    (h : s.treePositions j < s.treeTargetPositions j) (n : ℕ) :
    ((fun u => update u ρ)^[n] s).treePositions j < s.treeTargetPositions j := by
  induction n with
  | zero => exact h
  | succ n ih =>
    rw [Function.iterate_succ_apply', update_pos_formula _ _ _ hj, iterate_update_target]
    linarith

/-- C1: the region tag of `getBanyanPosition i` depends only on the band of
`i` (below 25% of N: trunk; from 25% up to below 35%: root; otherwise leaves)
and not on any random draw. -/
theorem c1_region_bands (i : ℕ) (ρ ρ' : ℕ → ℝ) :
    (getBanyanPosition i ρ).type = (getBanyanPosition i ρ').type ∧
    ((i : ℝ) < 0.25 * (treeCount : ℝ) → (getBanyanPosition i ρ).type = Region.trunk) ∧
    (0.25 * (treeCount : ℝ) ≤ (i : ℝ) → (i : ℝ) < 0.35 * (treeCount : ℝ) →
      (getBanyanPosition i ρ).type = Region.root) ∧
    (0.35 * (treeCount : ℝ) ≤ (i : ℝ) → (getBanyanPosition i ρ).type = Region.leaves) := by
  unfold getBanyanPosition
  refine ⟨by split_ifs <;> rfl, ?_, ?_, ?_⟩
  · intro h
    rw [if_pos (by linarith [mul_comm (0.25 : ℝ) (treeCount : ℝ)] : (i : ℝ) < (treeCount : ℝ) * 0.25)]
  · intro h1 h2
    rw [if_neg (by nlinarith), if_pos (by nlinarith)]
  · intro h
    rw [if_neg (by nlinarith), if_neg (by nlinarith)]

/-- Witness for C1 at the concrete index 0 (trunk band). -/
theorem c1_region_bands_witness :
    (0 : ℝ) < 0.25 * (treeCount : ℝ) ∧
    (getBanyanPosition 0 (fun _ => 0)).type = Region.trunk := by
  refine ⟨by norm_num [treeCount], ?_⟩
  have h := (c1_region_bands 0 (fun _ => 0) (fun _ => 0)).2.1
  exact h (by norm_num [treeCount])

/-- C3: `rotate(x)` overwrites the rotation velocity with exactly
`(x - 0.5) * 0.1`, independent of the prior velocity; at `x = 0.5` it is 0,
at `x = 1` it is the maximum positive gain 0.05, at `x = 0` it is -0.05. -/
theorem c3_rotate_overwrites (s s' : ParticleTree) (x : ℝ) :
    (rotate s x).rotationSpeed = (x - 0.5) * 0.1 ∧
    (rotate s x).rotationSpeed = (rotate s' x).rotationSpeed ∧
    (rotate s 0.5).rotationSpeed = 0 ∧
    (rotate s 1).rotationSpeed = 0.05 ∧
    (rotate s 0).rotationSpeed = -0.05 := by
  refine ⟨rfl, rfl, ?_, ?_, ?_⟩ <;> simp [rotate] <;> norm_num

/-- C2: one `update()` maps every in-range position cell to
`current + (target - current) * 0.06`; from current 0 and target 10 one call
yields 0.6; and a cell strictly below its target strictly increases on every
further `update()` while never reaching the target. -/
theorem c2_update_exponential_blend (s : ParticleTree) (ρ : ℕ → ℕ → ℝ) (j : ℕ)
    (hj : j < 3 * treeCount) :
    (update s ρ).treePositions j
      = s.treePositions j + (s.treeTargetPositions j - s.treePositions j) * 0.06 ∧
    (s.treePositions j = 0 → s.treeTargetPositions j = 10 →
      (update s ρ).treePositions j = 0.6) ∧
    (s.treePositions j < s.treeTargetPositions j → ∀ n : ℕ,
      ((fun u => update u ρ)^[n] s).treePositions j
        < ((fun u => update u ρ)^[n + 1] s).treePositions j ∧
      ((fun u => update u ρ)^[n] s).treePositions j < s.treeTargetPositions j) := by
  refine ⟨update_pos_formula s ρ j hj, ?_, ?_⟩
  · intro h0 ht
    rw [update_pos_formula s ρ j hj, h0, ht]
    norm_num
  · intro hlt n
    have hb := iterate_update_pos_lt s ρ j hj hlt n
    refine ⟨?_, hb⟩
    rw [Function.iterate_succ_apply', update_pos_formula _ _ _ hj, iterate_update_target]
    linarith

/-- Witness for C2: on the concrete state with current 0 and target 10, one
`update` produces 0.6, and the first step strictly increases the cell. -/
theorem c2_update_exponential_blend_witness :
    (update treeSimple zeroStream).treePositions 0 = 0.6 ∧
    ((fun u => update u zeroStream)^[0] treeSimple).treePositions 0
      < ((fun u => update u zeroStream)^[0 + 1] treeSimple).treePositions 0 := by
  have h := c2_update_exponential_blend treeSimple zeroStream 0 (by norm_num [treeCount])
  refine ⟨h.2.1 rfl rfl, ?_⟩
  exact (h.2.2 (by norm_num [treeSimple]) 0).1

/-- C4 counterexample: `rotate` does not clamp its input to [0, 1].  At the
out-of-range input 2 the resulting velocity differs from the velocity at the
nearest endpoint 1, and its magnitude exceeds the maximum gain 0.05. -/
theorem c4_clamp_counterexample :
    (rotate treeSimple 2).rotationSpeed ≠ (rotate treeSimple 1).rotationSpeed ∧
    0.05 < (rotate treeSimple 2).rotationSpeed := by
  refine ⟨?_, ?_⟩ <;> simp only [rotate] <;> norm_num

/-- C4 (amended): `rotate(x)` performs no clamping and never fails: for every
real `x` the velocity is exactly `(x - 0.5) * 0.1`, so inputs above 1 produce
velocities above the in-range maximum 0.05 and inputs below 0 produce
velocities below -0.05. -/
theorem c4_rotate_unclamped (s : ParticleTree) (x : ℝ) :
    (rotate s x).rotationSpeed = (x - 0.5) * 0.1 ∧
    (1 < x → 0.05 < (rotate s x).rotationSpeed) ∧
    (x < 0 → (rotate s x).rotationSpeed < -0.05) := by
  refine ⟨rfl, fun h => ?_, fun h => ?_⟩ <;> simp only [rotate] <;> nlinarith

/-- Witness for the amended C4 at the concrete input 2. -/
theorem c4_rotate_unclamped_witness :
    (1 : ℝ) < 2 ∧ 0.05 < (rotate treeSimple 2).rotationSpeed :=
  ⟨by norm_num, (c4_rotate_unclamped treeSimple 2).2.1 (by norm_num)⟩

/-- C5: `form()` in state `formed` and `disperse()` in state `dispersed` are
exact no-ops on the whole field, while `form()` in state `dispersed` switches
the state to `formed` and overwrites every in-range target cell with a freshly
generated `getBanyanPosition` coordinate. -/
theorem c5_transitions_idempotent (s : ParticleTree) (ρ ρ' : ℕ → ℕ → ℝ) :
    (s.state = TreeState.formed → form s ρ = s) ∧
    (s.state = TreeState.dispersed → disperse s ρ' = s) ∧
    (s.state = TreeState.dispersed →
      (form s ρ).state = TreeState.formed ∧
      ∀ j, j < 3 * treeCount →
        (form s ρ).treeTargetPositions j
          = vecCoord (getBanyanPosition (j / 3) (ρ (j / 3))).pos (j % 3)) := by
  refine ⟨fun h => by simp [form, h], fun h => by simp [disperse, h], fun h => ?_⟩
  have hne : ¬ s.state = TreeState.formed := by simp [h]
  exact ⟨by simp [form, hne], fun j hj => by simp [form, hne, hj]⟩

/-- Witness for C5: a fresh `form` on a formed state is the identity, and a
`form` after a `disperse` restores the `formed` state. -/
theorem c5_transitions_idempotent_witness :
    form treeSimple zeroStream = treeSimple ∧
    (form (disperse treeSimple zeroStream) zeroStream).state = TreeState.formed := by
  refine ⟨(c5_transitions_idempotent treeSimple zeroStream zeroStream).1 rfl, ?_⟩
  have h := (c5_transitions_idempotent (disperse treeSimple zeroStream) zeroStream zeroStream).2.2
  exact (h (by simp [disperse, treeSimple])).1

/-- C6: `form` and `disperse` leave the current-position, color, size and
opacity buffers (and the rotation velocity) untouched, and neither `rotate`
nor `update` ever writes the color, size or opacity buffers. -/
theorem c6_frame_effects (s : ParticleTree) (ρ ρ' ρm : ℕ → ℕ → ℝ) (x : ℝ) :
    ((form s ρ).treePositions = s.treePositions ∧
     (form s ρ).treeColors = s.treeColors ∧
     (form s ρ).treeSizes = s.treeSizes ∧
     (form s ρ).treeOpacities = s.treeOpacities ∧
     (form s ρ).rotationSpeed = s.rotationSpeed) ∧
    ((disperse s ρ').treePositions = s.treePositions ∧
     (disperse s ρ').treeColors = s.treeColors ∧
     (disperse s ρ').treeSizes = s.treeSizes ∧
     (disperse s ρ').treeOpacities = s.treeOpacities ∧
     (disperse s ρ').rotationSpeed = s.rotationSpeed) ∧
    ((rotate s x).treeColors = s.treeColors ∧
     (rotate s x).treeSizes = s.treeSizes ∧
     (rotate s x).treeOpacities = s.treeOpacities) ∧
    ((update s ρm).treeColors = s.treeColors ∧
     (update s ρm).treeSizes = s.treeSizes ∧
     (update s ρm).treeOpacities = s.treeOpacities) := by
  refine ⟨?_, ?_, ⟨rfl, rfl, rfl⟩, ⟨rfl, rfl, rfl⟩⟩
  · unfold form
    split_ifs <;> exact ⟨rfl, rfl, rfl, rfl, rfl⟩
  · unfold disperse
    split_ifs <;> exact ⟨rfl, rfl, rfl, rfl, rfl⟩

/-- In-range target cell written by `disperse` when the state allows it. -/
theorem disperse_target_cell (s : ParticleTree) (ρ : ℕ → ℕ → ℝ)
    (h : ¬ s.state = TreeState.dispersed) (j : ℕ) (hj : j < 3 * treeCount) :
    (disperse s ρ).treeTargetPositions j
      = vecCoord (getDispersedPosition (ρ (j / 3))) (j % 3) := by
  simp [disperse, h, hj]

/-- A dispersed sample lies inside the closed ball of radius 10 whenever its
radius draw lies in [0, 1), the range of `Math.random()`. -/
theorem getDispersedPosition_norm_le (ρ : ℕ → ℝ) (h0 : 0 ≤ ρ 0) (h1 : ρ 0 < 1) :
    Real.sqrt ((getDispersedPosition ρ).x ^ 2 + (getDispersedPosition ρ).y ^ 2 +
      (getDispersedPosition ρ).z ^ 2) ≤ 10 := by
  unfold getDispersedPosition
  simp only
  set r : ℝ := 10 * cbrt (ρ 0) with hr
  set theta : ℝ := ρ 1 * 2 * Real.pi
  set phi : ℝ := Real.arccos (2 * ρ 2 - 1)
  have hcb0 : 0 ≤ cbrt (ρ 0) := by
    unfold cbrt
    rw [if_neg (by linarith)]
    exact Real.rpow_nonneg h0 _
  have hcb1 : cbrt (ρ 0) ≤ 1 := by
    unfold cbrt
    rw [if_neg (by linarith)]
    exact Real.rpow_le_one h0 (le_of_lt h1) (by norm_num)
  have hr0 : 0 ≤ r := by positivity
  have hr10 : r ≤ 10 := by nlinarith
  have hth : Real.cos theta ^ 2 + Real.sin theta ^ 2 = 1 := Real.cos_sq_add_sin_sq theta
  have hph : Real.sin phi ^ 2 + Real.cos phi ^ 2 = 1 := Real.sin_sq_add_cos_sq phi
  have hsum : (r * Real.sin phi * Real.cos theta) ^ 2 +
      (r * Real.sin phi * Real.sin theta) ^ 2 + (r * Real.cos phi) ^ 2 = r ^ 2 := by
    linear_combination (r ^ 2 * Real.sin phi ^ 2) * hth + r ^ 2 * hph
  rw [hsum, Real.sqrt_sq hr0]
  exact hr10

/-- C7: when `disperse()` fires from the `formed` state, each particle's
target triple is exactly the solid-sphere sample of `getDispersedPosition`
(radius `10 * cbrt u`, uniform azimuth, arccos polar angle), and that triple
lies within Euclidean distance 10 of the origin. -/
theorem c7_disperse_in_ball (s : ParticleTree) (ρ : ℕ → ℕ → ℝ)
    (hs : s.state = TreeState.formed)
    (hρ : ∀ i, 0 ≤ ρ i 0 ∧ ρ i 0 < 1) (i : ℕ) (hi : i < treeCount) :
    (disperse s ρ).treeTargetPositions (3 * i) = (getDispersedPosition (ρ i)).x ∧
    (disperse s ρ).treeTargetPositions (3 * i + 1) = (getDispersedPosition (ρ i)).y ∧
    (disperse s ρ).treeTargetPositions (3 * i + 2) = (getDispersedPosition (ρ i)).z ∧
    Real.sqrt ((disperse s ρ).treeTargetPositions (3 * i) ^ 2 +
      (disperse s ρ).treeTargetPositions (3 * i + 1) ^ 2 +
      (disperse s ρ).treeTargetPositions (3 * i + 2) ^ 2) ≤ 10 := by
  have hne : ¬ s.state = TreeState.dispersed := by simp [hs]
  have e0 : (disperse s ρ).treeTargetPositions (3 * i) = (getDispersedPosition (ρ i)).x := by
    rw [disperse_target_cell s ρ hne (3 * i) (by omega)]
    have d1 : 3 * i / 3 = i := by omega
    have d2 : 3 * i % 3 = 0 := by omega
    rw [d1, d2]
    rfl
  have e1 : (disperse s ρ).treeTargetPositions (3 * i + 1) = (getDispersedPosition (ρ i)).y := by
    rw [disperse_target_cell s ρ hne (3 * i + 1) (by omega)]
    have d1 : (3 * i + 1) / 3 = i := by omega
    have d2 : (3 * i + 1) % 3 = 1 := by omega
    rw [d1, d2]
    rfl
  have e2 : (disperse s ρ).treeTargetPositions (3 * i + 2) = (getDispersedPosition (ρ i)).z := by
    rw [disperse_target_cell s ρ hne (3 * i + 2) (by omega)]
    have d1 : (3 * i + 2) / 3 = i := by omega
    have d2 : (3 * i + 2) % 3 = 2 := by omega
    rw [d1, d2]
    rfl
  refine ⟨e0, e1, e2, ?_⟩
  rw [e0, e1, e2]
  exact getDispersedPosition_norm_le (ρ i) (hρ i).1 (hρ i).2

/-- Witness for C7 at the formed state `treeSimple`, the all-zeros stream and
particle index 0. -/
theorem c7_disperse_in_ball_witness :
    Real.sqrt ((disperse treeSimple zeroStream).treeTargetPositions (3 * 0) ^ 2 +
      (disperse treeSimple zeroStream).treeTargetPositions (3 * 0 + 1) ^ 2 +
      (disperse treeSimple zeroStream).treeTargetPositions (3 * 0 + 2) ^ 2) ≤ 10 :=
  (c7_disperse_in_ball treeSimple zeroStream rfl
    (fun _ => ⟨by norm_num [zeroStream], by norm_num [zeroStream]⟩) 0 (by norm_num [treeCount])).2.2.2

/-- Iterating `update` multiplies the rotation velocity by `0.96 ^ n`. -/
theorem iterate_update_rotationSpeed (s : ParticleTree) (ρ : ℕ → ℕ → ℝ) (n : ℕ) :
    ((fun u => update u ρ)^[n] s).rotationSpeed = s.rotationSpeed * 0.96 ^ n := by
  induction n with
  | zero => simp
  | succ n ih =>
    rw [Function.iterate_succ_apply']
    show ((fun u => update u ρ)^[n] s).rotationSpeed * 0.96 = _
    rw [ih, pow_succ]
    ring

/-- C8: `update()` adds the pre-decay rotation velocity to the orientation and
then damps the velocity by 0.96; hence after `rotate(x)` followed by `n`
updates the velocity is `(x - 0.5) * 0.1 * 0.96 ^ n`, which keeps the sign of
the initial velocity and decreases in magnitude on every further frame. -/
theorem c8_rotation_damping (s : ParticleTree) (ρ : ℕ → ℕ → ℝ) (x : ℝ) (n : ℕ) :
    (update s ρ).rotationY = s.rotationY + s.rotationSpeed ∧
    (update s ρ).rotationSpeed = s.rotationSpeed * 0.96 ∧
    ((fun u => update u ρ)^[n] (rotate s x)).rotationSpeed
      = (x - 0.5) * 0.1 * 0.96 ^ n ∧
    (0 < (x - 0.5) * 0.1 →
      0 < ((fun u => update u ρ)^[n] (rotate s x)).rotationSpeed) ∧
    ((x - 0.5) * 0.1 < 0 →
      ((fun u => update u ρ)^[n] (rotate s x)).rotationSpeed < 0) ∧
    |((fun u => update u ρ)^[n + 1] (rotate s x)).rotationSpeed|
      ≤ |((fun u => update u ρ)^[n] (rotate s x)).rotationSpeed| := by
  have hiter : ((fun u => update u ρ)^[n] (rotate s x)).rotationSpeed
      = (x - 0.5) * 0.1 * 0.96 ^ n := by
    rw [iterate_update_rotationSpeed]
    rfl
  have hpow : (0 : ℝ) < 0.96 ^ n := by positivity
  refine ⟨rfl, rfl, hiter, ?_, ?_, ?_⟩
  · intro h
    rw [hiter]
    positivity
  · intro h
    rw [hiter]
    exact mul_neg_of_neg_of_pos h hpow
  · have hsucc : ((fun u => update u ρ)^[n + 1] (rotate s x)).rotationSpeed
        = (x - 0.5) * 0.1 * 0.96 ^ (n + 1) := by
      rw [iterate_update_rotationSpeed]
      rfl
    rw [hiter, hsucc, pow_succ, ← mul_assoc, abs_mul]
    have h96 : |(0.96 : ℝ)| = 0.96 := by norm_num
    rw [h96]
    nlinarith [abs_nonneg ((x - 0.5) * 0.1 * 0.96 ^ n)]

/-- Witness for C8 at `x = 1`, `n = 1`: the velocity stays positive. -/
theorem c8_rotation_damping_witness :
    0 < ((fun u => update u zeroStream)^[1] (rotate treeSimple 1)).rotationSpeed :=
  (c8_rotation_damping treeSimple zeroStream 1 1).2.2.2.1 (by norm_num)

/-- C9: immediately after construction the state is `formed`, every current
position cell equals its target cell, and a `form()` issued before any
`disperse()` is the identity (no buffer is modified, nothing is resampled). -/
theorem c9_constructed_formed (ρt ρm ρ' : ℕ → ℕ → ℝ) :
    (mkParticleTree ρt ρm).state = TreeState.formed ∧
    (∀ j, (mkParticleTree ρt ρm).treePositions j
      = (mkParticleTree ρt ρm).treeTargetPositions j) ∧
    form (mkParticleTree ρt ρm) ρ' = mkParticleTree ρt ρm := by
  exact ⟨rfl, fun j => rfl, by simp [form, mkParticleTree]⟩

/-- C10: for every processed frame with a detected hand, the emitted event list
ends with `move(wrist.x)` unconditionally, preceded by `fist` exactly when the
average distance is below 0.2 and by `openHand` exactly when it exceeds 0.3;
consequently dispatching the frame's events always overwrites the rotation
velocity with `(wrist.x - 0.5) * 0.1`. -/
theorem c10_move_every_frame (lm : ℕ → Landmark) (s : ParticleTree) (ρ : ℕ → ℕ → ℝ) :
    (∃ pre, processGestures lm = pre ++ [GEvent.move (lm 0).x] ∧
      (pre = [GEvent.fist] ↔ avgDist lm < 0.2) ∧
      (pre = [GEvent.openHand] ↔ ¬ avgDist lm < 0.2 ∧ avgDist lm > 0.3) ∧
      (pre = [] ↔ ¬ avgDist lm < 0.2 ∧ ¬ avgDist lm > 0.3)) ∧
    ((processGestures lm).foldl (dispatchEvent ρ) s).rotationSpeed
      = ((lm 0).x - 0.5) * 0.1 := by
  constructor
  · unfold processGestures
    split_ifs with h1 h2
    · exact ⟨[GEvent.fist], rfl, by simp [h1], by simp [h1], by simp [h1]⟩
    · exact ⟨[GEvent.openHand], rfl, by simp [h1], by simp [h1, h2], by simp [h2]⟩
    · exact ⟨[], rfl, by simp [h1], by simp [h2], by simp [h1, h2]⟩
  · unfold processGestures
    split_ifs <;> rfl

end

end TraceHandle
